import Mathlib

/-!
Verification development for `src/bot2.py`, a scheduled message-broadcasting
script.  The Python source is shallowly embedded: module-level constants become
Lean constants, the exception classes imported from the platform client library
become an inductive type, and each function of interest becomes a Lean
function over explicit oracles for the external world (network behaviour,
file system, environment variables).  Side effects that the specification
talks about (underlying send calls, sleeps, session persistence, log lines)
are recorded as explicit event traces.  Text is modelled as lists of Unicode
code points and file contents as lists of bytes, both as `List Nat`.
-/

namespace Bot2

/-! ### Module-level configuration constants (bot2.py lines 18-27) -/

def DELAY_RANGE : Nat × Nat := (60, 120)

def CYCLE_DELAY : Nat := 300

def MAX_RETRIES : Nat := 3

def MAX_MESSAGE_LENGTH : Nat := 1000

/-! ### Exceptions

The exception classes imported from `instagrapi.exceptions` (bot2.py lines
9-13), plus a catch-all constructor for any other `Exception`.  In the
library, `ClientLoginRequired` and `ChallengeRequired` are subclasses of
`ClientError`, which matters for the `except` dispatch in Python. -/

inductive Exc where
  | feedbackRequired
  | sentryBlock
  | pleaseWaitFewMinutes
  | clientError
  | loginRequired
  | clientLoginRequired
  | challengeRequired
  | otherExc
  deriving DecidableEq, Repr

/-- Matches `except (FeedbackRequired, SentryBlock, PleaseWaitFewMinutes)`
(bot2.py line 152). -/
def isRateLimitExc : Exc → Bool
  | .feedbackRequired => true
  | .sentryBlock => true
  | .pleaseWaitFewMinutes => true
  | _ => false

/-- Matches `except (ClientError, LoginRequired)` (bot2.py line 160).
`ClientLoginRequired` and `ChallengeRequired` are subclasses of `ClientError`,
so they are caught by this clause as well. -/
def isGenericClientExc : Exc → Bool
  | .clientError => true
  | .loginRequired => true
  | .clientLoginRequired => true
  | .challengeRequired => true
  | _ => false

/-- Matches `except (ClientLoginRequired, ChallengeRequired, LoginRequired)`
(bot2.py line 130). -/
def isLoginRequiredExc : Exc → Bool
  | .clientLoginRequired => true
  | .challengeRequired => true
  | .loginRequired => true
  | _ => false

/-! ### DeliveryPolicy: `send_message` (bot2.py lines 147-168)

The network is an oracle `net : Nat → Option Exc` giving, for each attempt
number, the outcome of `cl.direct_send` on that attempt: `none` is success,
`some e` means the call raised `e`.  The function returns the boolean result
together with the trace of underlying send calls and sleeps, in order. -/

inductive SendEv where
  | directSend (attempt : Nat)
  | sleep (secs : Nat)
  deriving DecidableEq, Repr

def send_message (net : Nat → Option Exc) (attempt : Nat) : Bool × List SendEv :=
  match net attempt with
  | none => (true, [SendEv.directSend attempt])
  | some e =>
    if isRateLimitExc e then
      if h : attempt ≤ MAX_RETRIES then
        let r := send_message net (attempt + 1)
        (r.1, SendEv.directSend attempt :: SendEv.sleep (120 * attempt) :: r.2)
      else
        (false, [SendEv.directSend attempt])
    else if isGenericClientExc e then
      if h : attempt ≤ MAX_RETRIES then
        let r := send_message net (attempt + 1)
        (r.1, SendEv.directSend attempt :: SendEv.sleep 10 :: r.2)
      else
        (false, [SendEv.directSend attempt])
    else
      (false, [SendEv.directSend attempt])
termination_by MAX_RETRIES + 1 - attempt
decreasing_by
  · omega
  · omega

/-- Sleep durations of a send trace, in order. -/
def sleepsOf (evs : List SendEv) : List Nat :=
  evs.filterMap fun e =>
    match e with
    | SendEv.sleep n => some n
    | _ => none

/-- Predicate picking out underlying direct-send invocations. -/
def isDirectSendEv : SendEv → Bool
  | SendEv.directSend _ => true
  | _ => false

/-- Number of underlying `direct_send` invocations in a trace. -/
def sendCount (evs : List SendEv) : Nat :=
  evs.countP isDirectSendEv

/-! ### Text decoding

`load_config` opens the message file with `encoding="utf-8"` (bot2.py line
104).  We model the strict UTF-8 decoder of Python on raw bytes, producing the
list of decoded code points, or `none` when the codec would raise
`UnicodeDecodeError` (invalid lead byte, truncated or malformed sequence,
overlong encoding, surrogate, or out-of-range code point). -/

def utf8Cont (b : Nat) : Bool := 0x80 ≤ b && b < 0xC0

def decodeUtf8 : List Nat → Option (List Nat)
  | [] => some []
  | b :: rest =>
    if b < 0x80 then
      (decodeUtf8 rest).map (fun cps => b :: cps)
    else if b < 0xC2 then
      none
    else if b < 0xE0 then
      match rest with
      | b1 :: rest1 =>
        if utf8Cont b1 then
          (decodeUtf8 rest1).map (fun cps => ((b - 0xC0) * 64 + (b1 - 0x80)) :: cps)
        else none
      | [] => none
    else if b < 0xF0 then
      match rest with
      | b1 :: b2 :: rest2 =>
        if utf8Cont b1 && utf8Cont b2 then
          let cp := (b - 0xE0) * 4096 + (b1 - 0x80) * 64 + (b2 - 0x80)
          if cp < 0x800 || (0xD800 ≤ cp && cp < 0xE000) then none
          else (decodeUtf8 rest2).map (fun cps => cp :: cps)
        else none
      | _ => none
    else if b < 0xF5 then
      match rest with
      | b1 :: b2 :: b3 :: rest3 =>
        if utf8Cont b1 && utf8Cont b2 && utf8Cont b3 then
          let cp := (b - 0xF0) * 262144 + (b1 - 0x80) * 4096 + (b2 - 0x80) * 64 + (b3 - 0x80)
          if cp < 0x10000 || 0x10FFFF < cp then none
          else (decodeUtf8 rest3).map (fun cps => cp :: cps)
        else none
      | _ => none
    else none

/-- Decode a stream of UTF-16 code units (given a byte order) into code
points, pairing surrogates; `none` on a lone or mismatched surrogate or an
odd number of bytes.  Used only to state what a UTF-16 fallback would
accept; `bot2.py` itself never performs UTF-16 decoding. -/
def decodeUtf16Units (be : Bool) : List Nat → Option (List Nat)
  | [] => some []
  | [_] => none
  | b0 :: b1 :: rest =>
    let u := if be then b0 * 256 + b1 else b1 * 256 + b0
    if 0xD800 ≤ u && u < 0xDC00 then
      match rest with
      | c0 :: c1 :: rest2 =>
        let u2 := if be then c0 * 256 + c1 else c1 * 256 + c0
        if 0xDC00 ≤ u2 && u2 < 0xE000 then
          (decodeUtf16Units be rest2).map
            (fun cps => (0x10000 + (u - 0xD800) * 1024 + (u2 - 0xDC00)) :: cps)
        else none
      | _ => none
    else if 0xDC00 ≤ u && u < 0xE000 then none
    else (decodeUtf16Units be rest).map (fun cps => u :: cps)

/-- Modelled from the spec: the fallback decoding referenced by the spec
(the Python `utf-16` codec: an initial byte-order mark selects the byte order
and is consumed, little-endian otherwise).  This decoder is absent from
`src/bot2.py`; it is defined here only so that the fallback claim can be
stated and compared with what the code actually does. -/
def decodeUtf16 : List Nat → Option (List Nat)
  | 0xFF :: 0xFE :: rest => decodeUtf16Units false rest
  | 0xFE :: 0xFF :: rest => decodeUtf16Units true rest
  | bs => decodeUtf16Units false bs

/-- Code points stripped by the Python method `str.strip` (Unicode whitespace). -/
def isPySpace (c : Nat) : Bool :=
  (9 ≤ c && c ≤ 13) || (28 ≤ c && c ≤ 31) || c == 32 || c == 0x85 || c == 0xA0 ||
  c == 0x1680 || (0x2000 ≤ c && c ≤ 0x200A) || c == 0x2028 || c == 0x2029 ||
  c == 0x202F || c == 0x205F || c == 0x3000

/-- Model of the Python method `str.strip`: drop leading and trailing whitespace. -/
def pyStrip (l : List Nat) : List Nat :=
  ((l.dropWhile isPySpace).reverse.dropWhile isPySpace).reverse

/-- The message-text processing of bot2.py line 105:
`f.read().strip()[:MAX_MESSAGE_LENGTH]` applied to the decoded text. -/
def messageOfText (cps : List Nat) : List Nat :=
  (pyStrip cps).take MAX_MESSAGE_LENGTH

/-- Loading of the message field from the raw bytes of `msg.txt` (bot2.py
lines 104-105): strict UTF-8 decoding followed by strip and truncation;
`none` models the `UnicodeDecodeError` propagating (there is no fallback in
the code). -/
def loadMessageText (bs : List Nat) : Option (List Nat) :=
  (decodeUtf8 bs).map messageOfText

/-! ### ConfigSource: `load_config` (bot2.py lines 81-113)

The file system is modelled by the contents of the three required files:
`session.txt` and `gc.txt` as decoded text (they are opened without an
explicit encoding), `msg.txt` as raw bytes (it is opened with
`encoding="utf-8"` and its decoding can fail).  `none` means the file does
not exist. -/

structure FileState where
  sessionTxt : Option (List Nat)
  threadFile : Option (List Nat)
  messageFile : Option (List Nat)
  deriving DecidableEq, Repr

/-- How `load_config` can fail: `exitOne` models `exit(1)` (missing file or
empty field), `decodeError` models an uncaught `UnicodeDecodeError` from the
message file. -/
inductive LoadErr where
  | exitOne
  | decodeError
  deriving DecidableEq, Repr

structure Config where
  session_id : List Nat
  thread_ids : List (List Nat)
  message_text : List Nat
  deriving DecidableEq, Repr

/-- The thread-id list of bot2.py line 98: read lines, strip each, keep the
non-blank ones (order preserved). -/
def threadIdsOfText (cps : List Nat) : List (List Nat) :=
  ((cps.splitOn 10).map pyStrip).filter (fun l => !l.isEmpty)

def load_config (fs : FileState) : Except LoadErr Config :=
  match fs.sessionTxt, fs.threadFile, fs.messageFile with
  | some sess, some gcText, some msgBytes =>
    let session_id := pyStrip sess
    if session_id.isEmpty then Except.error LoadErr.exitOne
    else
      let thread_ids := threadIdsOfText gcText
      if thread_ids.isEmpty then Except.error LoadErr.exitOne
      else
        match decodeUtf8 msgBytes with
        | none => Except.error LoadErr.decodeError
        | some cps =>
          let message_text := messageOfText cps
          if message_text.isEmpty then Except.error LoadErr.exitOne
          else Except.ok (Config.mk session_id thread_ids message_text)
  | _, _, _ => Except.error LoadErr.exitOne

/-- A required field is missing (file absent) or empty (blank credential, no
valid thread id, blank message).  A message file whose bytes fail UTF-8
decoding is unreadable, not empty, so it is not covered here. -/
def configFieldMissingOrEmpty (fs : FileState) : Bool :=
  (match fs.sessionTxt with
   | some sess => (pyStrip sess).isEmpty
   | none => true) ||
  (match fs.threadFile with
   | some gcText => (threadIdsOfText gcText).isEmpty
   | none => true) ||
  (match fs.messageFile with
   | some msgBytes =>
     match decodeUtf8 msgBytes with
     | some cps => (messageOfText cps).isEmpty
     | none => false
   | none => true)

/-! ### CycleScheduler: the loop of `run_bot` (bot2.py lines 191-215)

Send outcomes and the random inter-message delays are oracles indexed by
cycle number and destination position.  Each cycle produces an event trace:
one send call and one inter-message sleep per destination in order, then the
cycle report (success count out of total) and the fixed inter-cycle sleep. -/

inductive BotEvent where
  | setupClientCall
  | sendCall (dest : List Nat) (ok : Bool)
  | interMessageSleep (secs : Nat)
  | cycleReport (cycle : Nat) (successes : Nat) (total : Nat)
  | cycleSleep (secs : Nat)
  deriving DecidableEq, Repr

/-- The `for idx, thread_id in enumerate(thread_ids, 1)` body: send to each
destination, count successes, sleep a randomized delay after every send. -/
def runCycleBody (sendF : List Nat → Bool) (delayF : Nat → Nat) :
    List (List Nat) → Nat → List BotEvent × Nat
  | [], _ => ([], 0)
  | d :: rest, idx =>
    let ok := sendF d
    let r := runCycleBody sendF delayF rest (idx + 1)
    (BotEvent.sendCall d ok :: BotEvent.interMessageSleep (delayF idx) :: r.1,
     (if ok then 1 else 0) + r.2)

/-- One full cycle: all destinations in order, then the report and the
inter-cycle sleep. -/
def runCycle (sendF : List Nat → Bool) (delayF : Nat → Nat)
    (dests : List (List Nat)) (cycleNum : Nat) : List BotEvent :=
  let r := runCycleBody sendF delayF dests 0
  r.1 ++ [BotEvent.cycleReport cycleNum r.2 dests.length, BotEvent.cycleSleep CYCLE_DELAY]

/-- The first `n` iterations of the infinite `while True` loop, starting
from cycle counter value `cur` (the counter is incremented at the top of the
loop, so the first executed cycle is numbered `cur + 1`; `run_bot`
initializes `cur = 0`). -/
def runCycles (sendF : Nat → List Nat → Bool) (delayF : Nat → Nat → Nat)
    (dests : List (List Nat)) : Nat → Nat → List BotEvent
  | _, 0 => []
  | cur, Nat.succ n =>
      runCycle (sendF (cur + 1)) (delayF (cur + 1)) dests (cur + 1) ++
        runCycles sendF delayF dests (cur + 1) n

/-- The startup sequence of `run_bot` (bot2.py lines 173-215), observed for
the first `n` cycles: load the configuration (aborting on failure before any
client activity), set up the client (`setupOk = false` models `setup_client`
aborting), then run the cycle loop. -/
def run_bot (fs : FileState) (setupOk : Bool) (sendF : Nat → List Nat → Bool)
    (delayF : Nat → Nat → Nat) (n : Nat) : List BotEvent :=
  match load_config fs with
  | Except.error _ => []
  | Except.ok cfg =>
    if setupOk then
      BotEvent.setupClientCall :: runCycles sendF delayF cfg.thread_ids 0 n
    else
      [BotEvent.setupClientCall]

/-! ### SessionManager: `setup_client` (bot2.py lines 118-142)

The external world is: whether `session.json` exists, the outcome of the
`load_settings` + `get_timeline_feed` validity probe (`none` = success,
`some e` = raised `e`), and the outcome of `login_by_sessionid` +
`dump_settings` (`none` = success). -/

structure SetupWorld where
  sessionFileExists : Bool
  probeResult : Option Exc
  loginResult : Option Exc
  deriving DecidableEq, Repr

inductive SetupEv where
  | loadSettings
  | probeCall
  | loginBySessionid
  | dumpSettings
  deriving DecidableEq, Repr

/-- Outcomes: `authed fresh` returns an authenticated handle (`fresh` records whether
it came from a fresh credential login that persisted a new session blob);
`exitOne`: `exit(1)` on irrecoverable login failure; `uncaught e`: exception
`e` propagates out of `setup_client`. -/
inductive SetupOutcome where
  | authed (fresh : Bool)
  | exitOne
  | uncaught (e : Exc)
  deriving DecidableEq, Repr

/-- The credential-login block of bot2.py lines 134-142. -/
def attempt_login (w : SetupWorld) (pre : List SetupEv) : SetupOutcome × List SetupEv :=
  match w.loginResult with
  | none => (SetupOutcome.authed true, pre ++ [SetupEv.loginBySessionid, SetupEv.dumpSettings])
  | some _ => (SetupOutcome.exitOne, pre ++ [SetupEv.loginBySessionid])

def setup_client (w : SetupWorld) : SetupOutcome × List SetupEv :=
  if w.sessionFileExists then
    match w.probeResult with
    | none => (SetupOutcome.authed false, [SetupEv.loadSettings, SetupEv.probeCall])
    | some e =>
      if isLoginRequiredExc e then
        attempt_login w [SetupEv.loadSettings, SetupEv.probeCall]
      else
        (SetupOutcome.uncaught e, [SetupEv.loadSettings, SetupEv.probeCall])
  else
    attempt_login w []

/-! ### The `__main__` exception handlers (bot2.py lines 234-240)

`run_bot` never returns normally, so the observable outcomes of the guarded
call are: a `KeyboardInterrupt`, or some other exception escaping the
scheduling loop.  The handlers only print; the event trace records what each
handler does. -/

inductive RunOutcome where
  | interrupted
  | raised (e : Exc)
  deriving DecidableEq, Repr

inductive MainEv where
  | logStopped
  | logCritical
  | persistSession
  deriving DecidableEq, Repr

def main_exception_handler : RunOutcome → List MainEv
  | RunOutcome.interrupted => [MainEv.logStopped]
  | RunOutcome.raised _ => [MainEv.logCritical]

/-! ### `ensure_files_exist` (bot2.py lines 59-79)

The environment is the three optional `RENDER_*` variables; the file system
is the three optional files.  Each file is created from its variable only
when the variable is set and the file does not already exist; the thread-id
variable is comma-separated and written line-separated. -/

structure Env where
  renderSessionId : Option (List Nat)
  renderMessageText : Option (List Nat)
  renderThreadIds : Option (List Nat)
  deriving DecidableEq, Repr

/-- Conversion of the comma-separated variable into line-separated file contents (bot2.py lines 77-78). -/
def commaToNewlines (cps : List Nat) : List Nat :=
  List.intercalate [10] (cps.splitOn 44)

def ensure_files_exist (env : Env) (fs : FileState) : FileState :=
  let fs1 :=
    match env.renderSessionId, fs.sessionTxt with
    | some v, none => FileState.mk (some v) fs.threadFile fs.messageFile
    | _, _ => fs
  let fs2 :=
    match env.renderMessageText, fs1.messageFile with
    | some v, none => FileState.mk fs1.sessionTxt fs1.threadFile (some v)
    | _, _ => fs1
  let fs3 :=
    match env.renderThreadIds, fs2.threadFile with
    | some v, none => FileState.mk fs2.sessionTxt (some (commaToNewlines v)) fs2.messageFile
    | _, _ => fs2
  fs3

/-! ## Theorems -/

/-- Full trace of `send_message` when every attempt raises the same
rate-limit-class exception. -/
lemma send_message_rate_limit_all_fail (net : Nat → Option Exc) (e : Exc)
    (he : isRateLimitExc e = true) (hnet : ∀ n, net n = some e) :
    send_message net 1 =
      (false, [SendEv.directSend 1, SendEv.sleep 120, SendEv.directSend 2, SendEv.sleep 240,
               SendEv.directSend 3, SendEv.sleep 360, SendEv.directSend 4]) := by
  have h4 : send_message net 4 = (false, [SendEv.directSend 4]) := by
    rw [send_message.eq_def]
    simp [hnet, he, MAX_RETRIES]
  have h3 : send_message net 3 =
      (false, [SendEv.directSend 3, SendEv.sleep 360, SendEv.directSend 4]) := by
    rw [send_message.eq_def]
    simp [hnet, he, MAX_RETRIES, h4]
  have h2 : send_message net 2 =
      (false, [SendEv.directSend 2, SendEv.sleep 240,
               SendEv.directSend 3, SendEv.sleep 360, SendEv.directSend 4]) := by
    rw [send_message.eq_def]
    simp [hnet, he, MAX_RETRIES, h3]
  rw [send_message.eq_def]
  simp [hnet, he, MAX_RETRIES, h2]

/-- Full trace of `send_message` when every attempt raises the same
generic-client-class exception. -/
lemma send_message_generic_all_fail (net : Nat → Option Exc) (e : Exc)
    (he1 : isRateLimitExc e = false) (he2 : isGenericClientExc e = true)
    (hnet : ∀ n, net n = some e) :
    send_message net 1 =
      (false, [SendEv.directSend 1, SendEv.sleep 10, SendEv.directSend 2, SendEv.sleep 10,
               SendEv.directSend 3, SendEv.sleep 10, SendEv.directSend 4]) := by
  have h4 : send_message net 4 = (false, [SendEv.directSend 4]) := by
    rw [send_message.eq_def]
    simp [hnet, he1, he2, MAX_RETRIES]
  have h3 : send_message net 3 =
      (false, [SendEv.directSend 3, SendEv.sleep 10, SendEv.directSend 4]) := by
    rw [send_message.eq_def]
    simp [hnet, he1, he2, MAX_RETRIES, h4]
  have h2 : send_message net 2 =
      (false, [SendEv.directSend 2, SendEv.sleep 10,
               SendEv.directSend 3, SendEv.sleep 10, SendEv.directSend 4]) := by
    rw [send_message.eq_def]
    simp [hnet, he1, he2, MAX_RETRIES, h3]
  rw [send_message.eq_def]
  simp [hnet, he1, he2, MAX_RETRIES, h2]

/-- Bound on the number of underlying sends, by induction on the remaining
retry budget. -/
lemma sendCount_le_aux (k : Nat) :
    ∀ attempt, MAX_RETRIES + 1 - attempt ≤ k →
      ∀ net : Nat → Option Exc, sendCount (send_message net attempt).2 ≤ k + 1 := by
  induction k with
  | zero =>
    intro attempt h net
    rw [send_message.eq_def]
    rcases hn : net attempt with _ | e
    · simp [sendCount, isDirectSendEv, List.countP_cons]
    · have h4 : ¬ (attempt ≤ MAX_RETRIES) := by simp [MAX_RETRIES] at h ⊢; omega
      simp only []
      split_ifs <;> simp_all [sendCount, isDirectSendEv, List.countP_cons]
  | succ k ih =>
    intro attempt h net
    rw [send_message.eq_def]
    rcases hn : net attempt with _ | e
    · simp [sendCount, isDirectSendEv, List.countP_cons]
    · simp only []
      split_ifs with h1 h2 h3 h4
      · have := ih (attempt + 1) (by omega) net
        simp [sendCount, isDirectSendEv, List.countP_cons] at this ⊢
        omega
      · simp [sendCount, isDirectSendEv, List.countP_cons]
      · have := ih (attempt + 1) (by omega) net
        simp [sendCount, isDirectSendEv, List.countP_cons] at this ⊢
        omega
      · simp [sendCount, isDirectSendEv, List.countP_cons]
      · simp [sendCount, isDirectSendEv, List.countP_cons]

/-- C1: when the underlying direct send raises a rate-limit-class exception
(`FeedbackRequired`, `SentryBlock`, or `PleaseWaitFewMinutes`) on every
attempt, `send_message` starting at attempt 1 returns failure after exactly 3
retries (4 underlying send invocations), sleeping 120, 240 and 360 seconds in
that order between attempts. -/
theorem c1_rate_limit_backoff (net : Nat → Option Exc) (e : Exc)
    (he : isRateLimitExc e = true) (hnet : ∀ n, net n = some e) :
    (send_message net 1).1 = false ∧
      sleepsOf (send_message net 1).2 = [120, 240, 360] ∧
      sendCount (send_message net 1).2 = MAX_RETRIES + 1 := by
  rw [send_message_rate_limit_all_fail net e he hnet]
  refine ⟨rfl, ?_, ?_⟩ <;>
    simp [sleepsOf, sendCount, isDirectSendEv, List.countP_cons, MAX_RETRIES]

/-- C1 witness: the rate-limit backoff theorem instantiated at the network
behaviour that raises `FeedbackRequired` on every attempt. -/
theorem c1_rate_limit_backoff_witness :
    (send_message (fun _ => some Exc.feedbackRequired) 1).1 = false ∧
      sleepsOf (send_message (fun _ => some Exc.feedbackRequired) 1).2 = [120, 240, 360] ∧
      sendCount (send_message (fun _ => some Exc.feedbackRequired) 1).2 = MAX_RETRIES + 1 :=
  c1_rate_limit_backoff (fun _ => some Exc.feedbackRequired) Exc.feedbackRequired rfl
    (fun _ => rfl)

/-- C2: when the underlying direct send raises `ClientError` or
`LoginRequired` on every attempt, `send_message` starting at attempt 1
returns failure after exactly 3 retries (4 underlying send invocations),
sleeping a fixed 10 seconds before each retry. -/
theorem c2_generic_error_retries (net : Nat → Option Exc) (e : Exc)
    (he : e = Exc.clientError ∨ e = Exc.loginRequired) (hnet : ∀ n, net n = some e) :
    (send_message net 1).1 = false ∧
      sleepsOf (send_message net 1).2 = [10, 10, 10] ∧
      sendCount (send_message net 1).2 = MAX_RETRIES + 1 := by
  have he1 : isRateLimitExc e = false := by rcases he with rfl | rfl <;> rfl
  have he2 : isGenericClientExc e = true := by rcases he with rfl | rfl <;> rfl
  rw [send_message_generic_all_fail net e he1 he2 hnet]
  refine ⟨rfl, ?_, ?_⟩ <;>
    simp [sleepsOf, sendCount, isDirectSendEv, List.countP_cons, MAX_RETRIES]

/-- C2 witness: the generic-error retry theorem instantiated at the network
behaviour that raises `ClientError` on every attempt. -/
theorem c2_generic_error_retries_witness :
    (send_message (fun _ => some Exc.clientError) 1).1 = false ∧
      sleepsOf (send_message (fun _ => some Exc.clientError) 1).2 = [10, 10, 10] ∧
      sendCount (send_message (fun _ => some Exc.clientError) 1).2 = MAX_RETRIES + 1 :=
  c2_generic_error_retries (fun _ => some Exc.clientError) Exc.clientError (Or.inl rfl)
    (fun _ => rfl)

/-- C9: the retry recursion is bounded whatever the network does: a top-level
call starting at attempt 1 performs at most `MAX_RETRIES + 1 = 4` underlying
direct-send invocations, and once the attempt counter exceeds `MAX_RETRIES`
no retry occurs (exactly one underlying send happens). -/
theorem c9_send_message_bounded (net : Nat → Option Exc) :
    sendCount (send_message net 1).2 ≤ MAX_RETRIES + 1 ∧
      ∀ attempt, MAX_RETRIES < attempt → sendCount (send_message net attempt).2 = 1 := by
  constructor
  · have := sendCount_le_aux MAX_RETRIES 1 (by omega) net
    omega
  · intro attempt hattempt
    rw [send_message.eq_def]
    rcases hn : net attempt with _ | e
    · simp [sendCount, isDirectSendEv, List.countP_cons]
    · have h4 : ¬ (attempt ≤ MAX_RETRIES) := by omega
      simp only []
      split_ifs <;> simp_all [sendCount, isDirectSendEv, List.countP_cons]

/-- C9 witness: the bound instantiated at the always-succeeding network, and
the no-retry clause at attempt 4. -/
theorem c9_send_message_bounded_witness :
    sendCount (send_message (fun _ => none) 1).2 ≤ MAX_RETRIES + 1 ∧
      sendCount (send_message (fun _ => none) 4).2 = 1 :=
  ⟨(c9_send_message_bounded (fun _ => none)).1,
   (c9_send_message_bounded (fun _ => none)).2 4 (by decide)⟩

/-- C3 counterexample: the bytes `FF FE 68 00` are valid UTF-16 (they decode
to the single code point `0x68` via the byte-order mark), are not valid
UTF-8, and message loading fails on them — no UTF-16 fallback is attempted
by the code, contrary to the claim that such inputs still produce the
message. -/
theorem c3_no_fallback_counterexample :
    (decodeUtf16 [0xFF, 0xFE, 0x68, 0x00]).isSome = true ∧
      decodeUtf8 [0xFF, 0xFE, 0x68, 0x00] = none ∧
      loadMessageText [0xFF, 0xFE, 0x68, 0x00] = none := by
  decide

/-- C3 amended: message loading decodes the raw bytes with UTF-8 only and
attempts no fallback decoding: it fails exactly when strict UTF-8 decoding
fails, regardless of whether the bytes are valid UTF-16. -/
theorem c3_utf8_only_no_fallback (bs : List Nat) :
    loadMessageText bs = none ↔ decodeUtf8 bs = none := by
  cases h : decodeUtf8 bs <;> simp [loadMessageText, h]

/-- C4: the loaded message is the stripped text truncated to
`MAX_MESSAGE_LENGTH = 1000` code points: text longer than 1000 after
stripping is cut to exactly 1000, and text of length at most 1000 is
returned unchanged. -/
theorem c4_message_truncation (cps : List Nat) :
    (1000 < (pyStrip cps).length → (messageOfText cps).length = 1000) ∧
      ((pyStrip cps).length ≤ 1000 → messageOfText cps = pyStrip cps) := by
  constructor
  · intro h
    simp [messageOfText, MAX_MESSAGE_LENGTH]
    omega
  · intro h
    simp [messageOfText, MAX_MESSAGE_LENGTH, List.take_of_length_le h]

set_option maxRecDepth 100000 in
/-- C4 witness: the truncation theorem applied to a 1001-character message
(truncated to 1000) and to a 2-character message (returned unchanged). -/
theorem c4_message_truncation_witness :
    (messageOfText (List.replicate 1001 97)).length = 1000 ∧
      messageOfText [104, 105] = pyStrip [104, 105] :=
  ⟨(c4_message_truncation (List.replicate 1001 97)).1 (by decide),
   (c4_message_truncation [104, 105]).2 (by decide)⟩

/-- A successfully loaded configuration has all three fields non-empty. -/
lemma load_config_ok_nonempty (fs : FileState) (cfg : Config)
    (h : load_config fs = Except.ok cfg) :
    cfg.session_id ≠ [] ∧ cfg.thread_ids ≠ [] ∧ cfg.message_text ≠ [] := by
  obtain ⟨s, t, m⟩ := fs
  rcases s with _ | s <;> rcases t with _ | t <;> rcases m with _ | m <;>
    simp [load_config] at h
  rcases hdec : decodeUtf8 m with _ | cps
  · rw [hdec] at h
    split_ifs at h
  · rw [hdec] at h
    split_ifs at h with h1 h2
    by_cases h3 : messageOfText cps = []
    · simp [h3] at h
    · simp [h3] at h
      rw [← h]
      exact ⟨h1, h2, h3⟩

/-- A missing or empty required field makes `load_config` exit. -/
lemma load_config_missing_empty (fs : FileState)
    (hbad : configFieldMissingOrEmpty fs = true) :
    load_config fs = Except.error LoadErr.exitOne := by
  obtain ⟨s, t, m⟩ := fs
  rcases s with _ | s <;> rcases t with _ | t <;> rcases m with _ | m <;>
    simp [load_config, configFieldMissingOrEmpty] at hbad ⊢
  intro hs ht
  rcases hdec : decodeUtf8 m with _ | cps
  · rw [hdec] at hbad
    simp [hs, ht] at hbad
  · rw [hdec] at hbad
    simp [hs, ht] at hbad
    simp [hbad]

/-- C5: fail-fast configuration validation.  If any required field is missing
or empty, `load_config` aborts with `exit(1)` and the run performs no
`setup_client` call and no send: its observable event trace is empty.
Conversely, any run that gets a configuration (and hence can reach the
scheduling loop) has a non-empty credential, a non-empty destination list
and a non-empty message. -/
theorem c5_fail_fast (fs : FileState) :
    (configFieldMissingOrEmpty fs = true →
       load_config fs = Except.error LoadErr.exitOne ∧
         ∀ setupOk sendF delayF n, run_bot fs setupOk sendF delayF n = []) ∧
      ∀ cfg, load_config fs = Except.ok cfg →
        cfg.session_id ≠ [] ∧ cfg.thread_ids ≠ [] ∧ cfg.message_text ≠ [] := by
  constructor
  · intro hbad
    have herr := load_config_missing_empty fs hbad
    exact ⟨herr, fun setupOk sendF delayF n => by simp [run_bot, herr]⟩
  · exact load_config_ok_nonempty fs

/-- C5 witness: with all three files missing the loader exits and the trace
is empty; with a valid file state the loaded fields are non-empty. -/
theorem c5_fail_fast_witness :
    (load_config (FileState.mk none none none) = Except.error LoadErr.exitOne ∧
       ∀ setupOk sendF delayF n,
         run_bot (FileState.mk none none none) setupOk sendF delayF n = []) ∧
      (Config.mk [116] [[103]] [104]).session_id ≠ [] ∧
        (Config.mk [116] [[103]] [104]).thread_ids ≠ [] ∧
        (Config.mk [116] [[103]] [104]).message_text ≠ [] :=
  ⟨(c5_fail_fast (FileState.mk none none none)).1 rfl,
   (c5_fail_fast (FileState.mk (some [116]) (some [103]) (some [104]))).2
     (Config.mk [116] [[103]] [104]) rfl⟩

/-- Closed form of the per-destination loop body: one send call followed by
one inter-message sleep per destination, in configuration order, and the
success count is the number of destinations whose send succeeded. -/
lemma runCycleBody_eq (sendF : List Nat → Bool) (delayF : Nat → Nat) :
    ∀ (dests : List (List Nat)) (idx : Nat),
      runCycleBody sendF delayF dests idx =
        (((List.enumFrom idx dests).map
            (fun p => [BotEvent.sendCall p.2 (sendF p.2),
                       BotEvent.interMessageSleep (delayF p.1)])).flatten,
         dests.countP sendF) := by
  intro dests
  induction dests with
  | nil => intro idx; simp [runCycleBody]
  | cons d rest ih =>
    intro idx
    simp [runCycleBody, ih (idx + 1), List.enumFrom, List.countP_cons]
    cases hd : sendF d <;> (simp [hd]; try omega)

/-- Closed form of the first `n` loop iterations: the cycles are numbered
`cur + 1, cur + 2, ...`, the full trace of each cycle appearing before the
next. -/
lemma runCycles_eq (sendF : Nat → List Nat → Bool) (delayF : Nat → Nat → Nat)
    (dests : List (List Nat)) :
    ∀ (n cur : Nat),
      runCycles sendF delayF dests cur n =
        ((List.range n).map
            (fun i => runCycle (sendF (cur + i + 1)) (delayF (cur + i + 1)) dests
              (cur + i + 1))).flatten := by
  intro n
  induction n with
  | zero => intro cur; simp [runCycles]
  | succ n ih =>
    intro cur
    rw [List.range_succ_eq_map]
    simp [runCycles, ih (cur + 1), List.map_map]
    refine congrArg _ (List.map_congr_left fun i _ => ?_)
    have harith : cur + 1 + i + 1 = cur + (i + 1) + 1 := by omega
    simp [Function.comp, harith]

/-- C6: the cycle scheduler.  Each cycle processes all destinations in
configuration order — one send call followed by one inter-message sleep per
destination, regardless of individual failures — then reports a success
count equal to the number of destinations whose send succeeded (out of the
total), then sleeps the fixed inter-cycle delay.  Across a run the cycle
numbers are `1, 2, ..., n`: the counter starts at 1 and increments by 1 each
cycle. -/
theorem c6_cycle_scheduler (sendF : Nat → List Nat → Bool) (delayF : Nat → Nat → Nat)
    (dests : List (List Nat)) (n : Nat) :
    (∀ c, runCycle (sendF c) (delayF c) dests c =
        ((List.enumFrom 0 dests).map
            (fun p => [BotEvent.sendCall p.2 (sendF c p.2),
                       BotEvent.interMessageSleep (delayF c p.1)])).flatten ++
          [BotEvent.cycleReport c (dests.countP (sendF c)) dests.length,
           BotEvent.cycleSleep CYCLE_DELAY]) ∧
      runCycles sendF delayF dests 0 n =
        ((List.range n).map
            (fun i => runCycle (sendF (i + 1)) (delayF (i + 1)) dests (i + 1))).flatten := by
  constructor
  · intro c
    simp [runCycle, runCycleBody_eq]
  · have h := runCycles_eq sendF delayF dests n 0
    simpa using h

/-- C7: an existing but expired persisted session — the validity probe raises
a login-required-class exception — makes `setup_client` fall back to
credential login, persist a fresh session blob (`dump_settings`), and return
an authenticated handle without aborting. -/
theorem c7_expired_session_relogin (w : SetupWorld) (e : Exc)
    (hex : w.sessionFileExists = true) (hp : w.probeResult = some e)
    (he : isLoginRequiredExc e = true) (hl : w.loginResult = none) :
    setup_client w =
      (SetupOutcome.authed true,
       [SetupEv.loadSettings, SetupEv.probeCall,
        SetupEv.loginBySessionid, SetupEv.dumpSettings]) := by
  simp [setup_client, hex, hp, he, attempt_login, hl]

/-- C7 witness: the re-login theorem at the world whose probe raises
`LoginRequired` and whose credential login succeeds. -/
theorem c7_expired_session_relogin_witness :
    setup_client (SetupWorld.mk true (some Exc.loginRequired) none) =
      (SetupOutcome.authed true,
       [SetupEv.loadSettings, SetupEv.probeCall,
        SetupEv.loginBySessionid, SetupEv.dumpSettings]) :=
  c7_expired_session_relogin (SetupWorld.mk true (some Exc.loginRequired) none)
    Exc.loginRequired rfl rfl rfl rfl

/-- C8 counterexample: when an exception escapes the scheduling loop, the
outermost handler only logs — the trace contains no session persistence, and
the `KeyboardInterrupt` handler performs none either, contrary to the claim
that a best-effort session persistence happens before the process ends. -/
theorem c8_no_persistence_counterexample :
    main_exception_handler (RunOutcome.raised Exc.otherExc) = [MainEv.logCritical] ∧
      MainEv.persistSession ∉ main_exception_handler (RunOutcome.raised Exc.otherExc) ∧
      MainEv.persistSession ∉ main_exception_handler RunOutcome.interrupted := by
  decide

/-- C8 amended: an unhandled exception escaping the scheduling loop (and
likewise an external interruption) is caught exactly once at the outermost
level and logged — the handler emits exactly one log event — but no session
persistence of any kind is performed before the process ends. -/
theorem c8_outermost_handler_logs_only (o : RunOutcome) :
    (main_exception_handler o).length = 1 ∧
      MainEv.persistSession ∉ main_exception_handler o := by
  cases o <;> simp [main_exception_handler]

/-- C10: `ensure_files_exist` never overwrites an existing file: whatever the
environment variables hold, each of the session, message, and thread-id
files keeps its contents whenever it already exists. -/
theorem c10_no_overwrite (env : Env) (fs : FileState) :
    (∀ s, fs.sessionTxt = some s → (ensure_files_exist env fs).sessionTxt = some s) ∧
      (∀ t, fs.threadFile = some t → (ensure_files_exist env fs).threadFile = some t) ∧
      (∀ m, fs.messageFile = some m → (ensure_files_exist env fs).messageFile = some m) := by
  obtain ⟨es, em, et⟩ := env
  obtain ⟨s, t, m⟩ := fs
  refine ⟨fun s0 hs => ?_, fun t0 ht => ?_, fun m0 hm => ?_⟩ <;>
    rcases es with _ | es <;> rcases em with _ | em <;> rcases et with _ | et <;>
    rcases s with _ | s <;> rcases t with _ | t <;> rcases m with _ | m <;>
    simp_all [ensure_files_exist]

/-- C10 witness: with every environment variable set and every file already
present, all three files keep their original contents. -/
theorem c10_no_overwrite_witness :
    (ensure_files_exist (Env.mk (some [1]) (some [2]) (some [3]))
        (FileState.mk (some [4]) (some [5]) (some [6]))).sessionTxt = some [4] ∧
      (ensure_files_exist (Env.mk (some [1]) (some [2]) (some [3]))
          (FileState.mk (some [4]) (some [5]) (some [6]))).threadFile = some [5] ∧
      (ensure_files_exist (Env.mk (some [1]) (some [2]) (some [3]))
          (FileState.mk (some [4]) (some [5]) (some [6]))).messageFile = some [6] :=
  ⟨(c10_no_overwrite (Env.mk (some [1]) (some [2]) (some [3]))
      (FileState.mk (some [4]) (some [5]) (some [6]))).1 [4] rfl,
   (c10_no_overwrite (Env.mk (some [1]) (some [2]) (some [3]))
      (FileState.mk (some [4]) (some [5]) (some [6]))).2.1 [5] rfl,
   (c10_no_overwrite (Env.mk (some [1]) (some [2]) (some [3]))
      (FileState.mk (some [4]) (some [5]) (some [6]))).2.2 [6] rfl⟩

end Bot2
